import Mathlib

/-!
Shallow embedding of the Coderr marketplace backend (Django/DRF project:
`offers_app` models, serializers, filters and views).

Conventions of the embedding:
* primary keys are `Nat`, generated from monotone per-table counters
  (modelling autoincrement ids);
* `DecimalField(max_digits=10, decimal_places=2)` prices are `Int` cents,
  so the serializer bound `min_value=0.01` becomes `1 ≤ price`;
* timestamps are `Nat` ticks passed in as `now`;
* a request handler is a function `DB → ... → Except ApiError DB` (or a
  pure value for read-only endpoints); `Except.error` models the HTTP
  error response, in which case nothing is persisted, exactly as DRF
  validation raises before any `Model.objects.create` call runs;
* SQL `NULL` produced by `Min(...)` aggregation over an empty child set is
  `Option.none`; comparisons against `NULL` are false (SQL three-valued
  logic collapsed to the rows actually returned), and ascending `ORDER BY`
  puts `NULL` first (SQLite, the project database per `models.py`).
-/

/-- Tier category of a detail record (`OfferDetail.OFFER_TYPE_CHOICES`). -/
inductive OfferType where
  | basic
  | standard
  | premium
deriving DecidableEq

/-- Wire string of a tier (`CharField` choices values). -/
def OfferType.str : OfferType → String
  | .basic => "basic"
  | .standard => "standard"
  | .premium => "premium"

/-- Status of an order (`Order.STATUS_CHOICES`). -/
inductive OrderStatus where
  | in_progress
  | completed
  | cancelled
deriving DecidableEq

/-- Wire string of a status. -/
def OrderStatus.str : OrderStatus → String
  | .in_progress => "in_progress"
  | .completed => "completed"
  | .cancelled => "cancelled"

/-- Row of the `Offer` table (`offers_app/models.py`). -/
structure OfferRec where
  id : Nat
  user : Nat
  title : String
  image : Option String
  description : String
  created_at : Nat
  updated_at : Nat
deriving DecidableEq

/-- Row of the `OfferDetail` table. -/
structure OfferDetailRec where
  id : Nat
  offer : Nat
  title : String
  revisions : Int
  delivery_time_in_days : Int
  price : Int
  features : List String
  offer_type : OfferType
deriving DecidableEq

/-- Row of the `Order` table. `offer_type` is a plain string in the model
("Just string here, validation happens elsewhere"). -/
structure OrderRec where
  id : Nat
  customer_user : Nat
  business_user : Nat
  title : String
  revisions : Int
  delivery_time_in_days : Int
  price : Int
  features : List String
  offer_type : String
  status : OrderStatus
  created_at : Nat
  updated_at : Nat
deriving DecidableEq

/-- Row of the `Review` table. -/
structure ReviewRec where
  id : Nat
  business_user : Nat
  reviewer : Nat
  rating : Int
  description : String
  created_at : Nat
  updated_at : Nat
deriving DecidableEq

/-- The datastore: the four tables plus autoincrement counters. -/
structure DB where
  offers : List OfferRec
  details : List OfferDetailRec
  orders : List OrderRec
  reviews : List ReviewRec
  nextOfferId : Nat
  nextDetailId : Nat
  nextOrderId : Nat
  nextReviewId : Nat
deriving DecidableEq

/-- Error response of a handler: DRF `ValidationError` (HTTP 400),
`Http404` (HTTP 404), permission denial (HTTP 403). -/
inductive ApiError where
  | validation (msg : String)
  | notFound
  | forbidden
deriving DecidableEq

/-- The datastore actually reached after a handler ran: on an error
response nothing was persisted. -/
def commit (db : DB) : Except ApiError DB → DB
  | .ok db2 => db2
  | .error _ => db

/-- `Offer.objects.get(pk=i)` as a partial lookup. -/
def findOffer (db : DB) (i : Nat) : Option OfferRec :=
  db.offers.find? (fun o => o.id == i)

/-- `OfferDetail.objects.get(pk=i)` as a partial lookup. -/
def findDetail (db : DB) (i : Nat) : Option OfferDetailRec :=
  db.details.find? (fun d => d.id == i)

/-- `offer.details.all()`: the child rows of one offer. -/
def detailsOf (db : DB) (i : Nat) : List OfferDetailRec :=
  db.details.filter (fun d => d.offer == i)

/-- Minimum of a list of integers, `none` on the empty list
(SQL `MIN` aggregate). -/
def intMin? : List Int → Option Int
  | [] => none
  | x :: xs =>
    some (match intMin? xs with
          | none => x
          | some m => min x m)

/-- The `Min('details__price')` annotation of `OfferViewSet.get_queryset`:
true minimum detail price of an offer, `NULL` when it has no details. -/
def annMinPrice (db : DB) (i : Nat) : Option Int :=
  intMin? ((detailsOf db i).map (fun d => d.price))

/-- The `Min('details__delivery_time_in_days')` annotation. -/
def annMinDelivery (db : DB) (i : Nat) : Option Int :=
  intMin? ((detailsOf db i).map (fun d => d.delivery_time_in_days))

/-- `BaseOfferSerializer.get_min_price` / `get_min_delivery_time`:
report the aggregate, with `0` replacing `NULL`. -/
def serializeMin (v : Option Int) : Int :=
  v.getD 0

/-- Nested detail payload accepted by `OfferDetailSerializer` on writes
(no id: ids are server-assigned). -/
structure DetailInput where
  title : String
  revisions : Int
  delivery_time_in_days : Int
  price : Int
  features : List String
  offer_type : OfferType
deriving DecidableEq

/-- `OfferDetailSerializer` field validation: `price` is a decimal with
`min_value=0.01` (at least one cent) and `delivery_time_in_days` an
integer with `min_value=1`. -/
def validDetail (d : DetailInput) : Bool :=
  decide (1 ≤ d.price) && decide (1 ≤ d.delivery_time_in_days)

/-- Materialise one nested detail payload as a row
(`OfferDetail.objects.create(offer=..., **detail_data)`). -/
def createDetail (did oid : Nat) (d : DetailInput) : OfferDetailRec :=
  { id := did
    offer := oid
    title := d.title
    revisions := d.revisions
    delivery_time_in_days := d.delivery_time_in_days
    price := d.price
    features := d.features
    offer_type := d.offer_type }

/-- Materialise a list of nested detail payloads with consecutive fresh ids. -/
def buildDetails (startId oid : Nat) : List DetailInput → List OfferDetailRec
  | [] => []
  | d :: ds => createDetail startId oid d :: buildDetails (startId + 1) oid ds

/-- POST `/api/offers/` (`OfferWriteSerializer.create` after `is_valid`):
every nested detail is field-validated first; on any failure DRF raises
before `create` runs, so nothing is persisted. On success the offer row
and all its detail rows are appended. -/
def createOffer (db : DB) (userId now : Nat) (title : String)
    (image : Option String) (description : String)
    (details : List DetailInput) : Except ApiError DB :=
  if details.all validDetail then
    let offer : OfferRec :=
      { id := db.nextOfferId
        user := userId
        title := title
        image := image
        description := description
        created_at := now
        updated_at := now }
    .ok { db with
          offers := db.offers ++ [offer]
          details := db.details ++ buildDetails db.nextDetailId db.nextOfferId details
          nextOfferId := db.nextOfferId + 1
          nextDetailId := db.nextDetailId + details.length }
  else
    .error (.validation "detail")

/-- PATCH payload for an offer (`OfferWriteSerializer`, partial update):
omitted fields are `none`. -/
structure OfferPatch where
  title : Option String
  description : Option String
  image : Option String
  details : Option (List DetailInput)
deriving DecidableEq

/-- PATCH `/api/offers/{pk}/` (`OfferWriteSerializer.update`): scalars are
merged field-by-field; when the patch carries a `details` collection, the
offer's existing detail rows are ALL deleted
(`instance.details.all().delete()`) and fresh rows are created from the
payload. -/
def updateOffer (db : DB) (offerId now : Nat) (patch : OfferPatch) :
    Except ApiError DB :=
  match findOffer db offerId with
  | none => .error .notFound
  | some inst =>
    if (patch.details.getD []).all validDetail then
      let inst2 : OfferRec :=
        { inst with
          title := patch.title.getD inst.title
          description := patch.description.getD inst.description
          image := match patch.image with
                   | some s => some s
                   | none => inst.image
          updated_at := now }
      let offers2 := db.offers.map (fun o => if o.id == offerId then inst2 else o)
      match patch.details with
      | none => .ok { db with offers := offers2 }
      | some ds =>
        .ok { db with
              offers := offers2
              details := db.details.filter (fun d => !(d.offer == offerId))
                           ++ buildDetails db.nextDetailId offerId ds
              nextDetailId := db.nextDetailId + ds.length }
    else
      .error (.validation "detail")

/-- DELETE `/api/offers/{pk}/`: removes the offer; its detail rows go with
it (`on_delete=CASCADE`). Orders hold no foreign key to offers or details,
so the orders table is untouched. -/
def deleteOffer (db : DB) (offerId : Nat) : Except ApiError DB :=
  match findOffer db offerId with
  | none => .error .notFound
  | some _ =>
    .ok { db with
          offers := db.offers.filter (fun o => !(o.id == offerId))
          details := db.details.filter (fun d => !(d.offer == offerId)) }

/-- POST `/api/orders/` (`OrderSerializer.create`): look the detail row up
by id; a missing id raises `ValidationError({"offer_detail_id": "Invalid
ID."})` before any row is written. Otherwise every descriptive field of
the detail is copied by value into a fresh order row, `business_user` is
the current owner of the parent offer, and status starts `in_progress`.
(The parent-offer lookup cannot fail under foreign-key integrity.) -/
def createOrder (db : DB) (customerId now : Nat) (offer_detail_id : Nat) :
    Except ApiError DB :=
  match findDetail db offer_detail_id with
  | none => .error (.validation "Invalid ID.")
  | some d =>
    match findOffer db d.offer with
    | none => .error .notFound
    | some o =>
      let order : OrderRec :=
        { id := db.nextOrderId
          customer_user := customerId
          business_user := o.user
          title := d.title
          revisions := d.revisions
          delivery_time_in_days := d.delivery_time_in_days
          price := d.price
          features := d.features
          offer_type := d.offer_type.str
          status := .in_progress
          created_at := now
          updated_at := now }
      .ok { db with
            orders := db.orders ++ [order]
            nextOrderId := db.nextOrderId + 1 }

/-- PATCH payload for an order. Every field the wire format can carry is
present; `OrderSerializer.Meta.read_only_fields` makes DRF drop all of
them except `status` before `update` runs. -/
structure OrderPatch where
  status : Option OrderStatus
  title : Option String
  revisions : Option Int
  delivery_time_in_days : Option Int
  price : Option Int
  features : Option (List String)
  offer_type : Option String
  customer_user : Option Nat
  business_user : Option Nat
deriving DecidableEq

/-- PATCH `/api/orders/{pk}/`: only `status` reaches the update (all other
fields are read-only), plus the `auto_now` modification timestamp. -/
def updateOrder (o : OrderRec) (now : Nat) (p : OrderPatch) : OrderRec :=
  { o with status := p.status.getD o.status, updated_at := now }

/-- POST payload for a review (`reviewer` is read-only and taken from the
request user). -/
structure ReviewInput where
  business_user : Nat
  rating : Int
  description : String
deriving DecidableEq

/-- POST `/api/reviews/` (`ReviewSerializer.create`): pre-check that no
review by this reviewer for this business user exists, then insert. -/
def createReview (db : DB) (reviewerId now : Nat) (inp : ReviewInput) :
    Except ApiError DB :=
  if db.reviews.any
      (fun r => r.business_user == inp.business_user && r.reviewer == reviewerId) then
    .error (.validation "You have already reviewed this user.")
  else
    .ok { db with
          reviews := db.reviews ++
            [{ id := db.nextReviewId
               business_user := inp.business_user
               reviewer := reviewerId
               rating := inp.rating
               description := inp.description
               created_at := now
               updated_at := now }]
          nextReviewId := db.nextReviewId + 1 }

/-- PATCH payload for a review. -/
structure ReviewPatch where
  business_user : Option Nat
  rating : Option Int
  description : Option String
deriving DecidableEq

/-- PATCH `/api/reviews/{pk}/` (`ReviewSerializer.update`): the serializer
pops `business_user` from the validated data, so only rating and
description (and the `auto_now` timestamp) can change. -/
def updateReview (r : ReviewRec) (now : Nat) (p : ReviewPatch) : ReviewRec :=
  { r with
    rating := p.rating.getD r.rating
    description := p.description.getD r.description
    updated_at := now }

/-- The `Review.Meta.unique_together = (business_user, reviewer)` storage
constraint, as an invariant on the reviews table. -/
def uniquePairs (rs : List ReviewRec) : Prop :=
  List.Pairwise
    (fun a b => ¬(a.business_user = b.business_user ∧ a.reviewer = b.reviewer)) rs

/-- Number of review rows for one (business_user, reviewer) pair. -/
def countPair (rs : List ReviewRec) (b rev : Nat) : Nat :=
  (rs.filter (fun r => r.business_user == b && r.reviewer == rev)).length

/-- Case-folded substring test over character lists. -/
def listContainsSub : List Char → List Char → Bool
  | [], n => n.isEmpty
  | h :: t, n => n.isPrefixOf (h :: t) || listContainsSub t n

/-- Django `icontains`: case-insensitive substring match. -/
def icontains (hay needle : String) : Bool :=
  listContainsSub hay.toLower.toList needle.toLower.toList

/-- The ordering the client requested (`OrderingFilter`,
`ordering_fields = [min_price, updated_at]`). An absent or unknown
`ordering` parameter leaves the queryset default
`order_by(-updated_at)` in force. -/
inductive OfferOrdering where
  | minPriceAsc
  | minPriceDesc
  | updatedAtAsc
  | updatedAtDesc
  | unspecified
deriving DecidableEq

/-- Query parameters of GET `/api/offers/` (`OfferFilter`, ordering and
`OfferPagination`). `page` is 1-based. -/
structure ListParams where
  creator_id : Option Nat
  min_price : Option Int
  max_delivery_time : Option Int
  search : Option String
  ordering : OfferOrdering
  page : Nat
  page_size : Option Nat
deriving DecidableEq

/-- The conjunction of the `OfferFilter` filters, with SQL `NULL`
comparison semantics: a filter on the aggregate excludes offers whose
aggregate is `NULL`. -/
def passesFilters (db : DB) (p : ListParams) (o : OfferRec) : Bool :=
  (match p.creator_id with
   | none => true
   | some c => o.user == c) &&
  (match p.min_price with
   | none => true
   | some x =>
     match annMinPrice db o.id with
     | none => false
     | some m => decide (x ≤ m)) &&
  (match p.max_delivery_time with
   | none => true
   | some x =>
     match annMinDelivery db o.id with
     | none => false
     | some m => decide (m ≤ x)) &&
  (match p.search with
   | none => true
   | some s => icontains o.title s || icontains o.description s)

/-- `NULLs`-first comparison on the nullable aggregate (SQLite ascending
`ORDER BY`). -/
def optLe (a b : Option Int) : Bool :=
  match a, b with
  | none, _ => true
  | some _, none => false
  | some x, some y => decide (x ≤ y)

/-- `NULLs`-last comparison (SQLite descending `ORDER BY`). -/
def optGe (a b : Option Int) : Bool :=
  match a, b with
  | _, none => true
  | none, some _ => false
  | some x, some y => decide (y ≤ x)

/-- Row comparison realising the requested `ORDER BY`. -/
def offerLe (db : DB) (ord : OfferOrdering) (a b : OfferRec) : Bool :=
  match ord with
  | .minPriceAsc => optLe (annMinPrice db a.id) (annMinPrice db b.id)
  | .minPriceDesc => optGe (annMinPrice db a.id) (annMinPrice db b.id)
  | .updatedAtAsc => decide (a.updated_at ≤ b.updated_at)
  | .updatedAtDesc => decide (b.updated_at ≤ a.updated_at)
  | .unspecified => decide (b.updated_at ≤ a.updated_at)

/-- `OfferPagination`: client-adjustable page size, default 10,
capped at `max_page_size = 100`. -/
def pageSizeOf (p : ListParams) : Nat :=
  min (p.page_size.getD 10) 100

/-- GET `/api/offers/`: annotate, filter, order, paginate. Returns the
offer rows of the requested page in response order. -/
def listOffers (db : DB) (p : ListParams) : List OfferRec :=
  let filtered := db.offers.filter (passesFilters db p)
  let sorted :=
    List.insertionSort (fun a b => offerLe db p.ordering a b = true) filtered
  (sorted.drop ((p.page - 1) * pageSizeOf p)).take (pageSizeOf p)

/-- `OfferDetailLinkSerializer` output: id plus hyperlink to the
`offerdetail-detail` route. -/
structure LinkOut where
  id : Nat
  url : String
deriving DecidableEq

/-- Hyperlink of a detail row (router prefix `offerdetails`). -/
def linkOf (d : OfferDetailRec) : LinkOut :=
  { id := d.id, url := "/api/offerdetails/" ++ toString d.id ++ "/" }

/-- One element of the list response (`OfferListSerializer`, minus the
presentation-only `user_details` block): nested detail links plus the two
derived scalars with `NULL` reported as 0. -/
structure OfferListEntry where
  id : Nat
  user : Nat
  title : String
  image : Option String
  description : String
  created_at : Nat
  updated_at : Nat
  details : List LinkOut
  min_price : Int
  min_delivery_time : Int
deriving DecidableEq

/-- Serialize one offer row for the list response. -/
def offerListEntry (db : DB) (o : OfferRec) : OfferListEntry :=
  { id := o.id
    user := o.user
    title := o.title
    image := o.image
    description := o.description
    created_at := o.created_at
    updated_at := o.updated_at
    details := (detailsOf db o.id).map linkOf
    min_price := serializeMin (annMinPrice db o.id)
    min_delivery_time := serializeMin (annMinDelivery db o.id) }

/-- The serialized page of GET `/api/offers/`. -/
def listOffersPage (db : DB) (p : ListParams) : List OfferListEntry :=
  (listOffers db p).map (offerListEntry db)

/-- Body of GET `/api/offers/{pk}/` (`OfferRetrieveSerializer`): nested
detail links plus the two derived scalars. -/
structure OfferRetrieveOut where
  id : Nat
  user : Nat
  title : String
  image : Option String
  description : String
  created_at : Nat
  updated_at : Nat
  details : List LinkOut
  min_price : Int
  min_delivery_time : Int
deriving DecidableEq

/-- GET `/api/offers/{pk}/`: 404 when no offer has that pk, otherwise the
`OfferRetrieveSerializer` body. -/
def retrieveOffer (db : DB) (i : Nat) : Except ApiError OfferRetrieveOut :=
  match findOffer db i with
  | none => .error .notFound
  | some o =>
    .ok { id := o.id
          user := o.user
          title := o.title
          image := o.image
          description := o.description
          created_at := o.created_at
          updated_at := o.updated_at
          details := (detailsOf db i).map linkOf
          min_price := serializeMin (annMinPrice db i)
          min_delivery_time := serializeMin (annMinDelivery db i) }

/-- Field-by-field rendering of a detail link, for comparing response
shapes. -/
def renderLink (l : LinkOut) : List (String × String) :=
  [("id", toString l.id), ("url", l.url)]

/-- Field-by-field rendering of a full detail body, the
`OfferDetailSerializer` field list. -/
def renderDetailBody (d : OfferDetailRec) : List (String × String) :=
  [("id", toString d.id),
   ("title", d.title),
   ("revisions", toString d.revisions),
   ("delivery_time_in_days", toString d.delivery_time_in_days),
   ("price", toString d.price),
   ("features", String.intercalate "," d.features),
   ("offer_type", d.offer_type.str)]

/-- The `details` component of the retrieve response, rendered field by
field (`none` when the offer does not exist). -/
def retrieveDetailsRendered (db : DB) (i : Nat) :
    Option (List (List (String × String))) :=
  (retrieveOffer db i).toOption.map (fun out => out.details.map renderLink)

/-- Following the claim text for the retrieve response shape: the full
bodies of the offer's detail records, rendered field by field. -/
def claimedFullBodies (db : DB) (i : Nat) : List (List (String × String)) :=
  (detailsOf db i).map renderDetailBody

/-! ## Helper lemmas -/

lemma intMin?_mem {xs : List Int} {m : Int} (h : intMin? xs = some m) : m ∈ xs := by
  induction xs with
  | nil => simp [intMin?] at h
  | cons x t ih =>
    simp only [intMin?] at h
    cases ht : intMin? t with
    | none =>
      rw [ht] at h
      simp at h
      simp [h]
    | some m2 =>
      rw [ht] at h
      simp at h
      rcases min_choice x m2 with hc | hc
      · rw [hc] at h
        simp [h]
      · rw [hc] at h
        subst h
        exact List.mem_cons_of_mem _ (ih ht)

lemma annMinPrice_mem {db : DB} {i : Nat} {m : Int}
    (h : annMinPrice db i = some m) : ∃ d ∈ db.details, d.price = m := by
  have hm := intMin?_mem h
  rcases List.mem_map.mp hm with ⟨d, hd, hdm⟩
  exact ⟨d, (List.mem_filter.mp hd).1, hdm⟩

lemma optLe_total (a b : Option Int) : optLe a b = true ∨ optLe b a = true := by
  cases a with
  | none => left; rfl
  | some x =>
    cases b with
    | none => right; rfl
    | some y =>
      rcases Int.le_total x y with h | h
      · left; simp [optLe, h]
      · right; simp [optLe, h]

lemma optLe_trans {a b c : Option Int} (h1 : optLe a b = true)
    (h2 : optLe b c = true) : optLe a c = true := by
  cases a with
  | none => rfl
  | some x =>
    cases b with
    | none => simp [optLe] at h1
    | some y =>
      cases c with
      | none => simp [optLe] at h2
      | some z =>
        simp [optLe] at h1 h2 ⊢
        exact le_trans h1 h2

/-! ## C10 -/

/-- C10: a review update (full or partial) leaves `business_user`
unchanged — the serializer pops any supplied value, so a review can never
be re-targeted; only rating, description and the modification timestamp
can change. -/
theorem review_update_keeps_business_user (r : ReviewRec) (now : Nat)
    (p : ReviewPatch) :
    (updateReview r now p).business_user = r.business_user ∧
    (updateReview r now p).reviewer = r.reviewer ∧
    (updateReview r now p).id = r.id ∧
    (updateReview r now p).created_at = r.created_at := by
  exact ⟨rfl, rfl, rfl, rfl⟩

/-! ## C7 -/

/-- C7: `createOrder` with a detail id that matches no detail row returns
a validation error (caller-correctable) and leaves the orders table
unchanged: no order row is created. -/
theorem order_create_invalid_detail_id (db : DB) (cust now did : Nat)
    (h : findDetail db did = none) :
    createOrder db cust now did = .error (.validation "Invalid ID.") ∧
    (commit db (createOrder db cust now did)).orders = db.orders := by
  have h1 : createOrder db cust now did = .error (.validation "Invalid ID.") := by
    simp [createOrder, h]
  exact ⟨h1, by rw [h1]; rfl⟩

/-- Witness for C7: a concrete store with one detail row (id 1); id 999
matches nothing. -/
theorem order_create_invalid_detail_id_witness :
    createOrder
      { offers := [{ id := 10, user := 5, title := "Logo", image := none,
                     description := "d", created_at := 0, updated_at := 0 }]
        details := [{ id := 1, offer := 10, title := "Basic", revisions := 2,
                      delivery_time_in_days := 3, price := 10000,
                      features := ["a"], offer_type := .basic }]
        orders := [], reviews := [], nextOfferId := 11, nextDetailId := 2,
        nextOrderId := 1, nextReviewId := 1 }
      7 4 999 = .error (.validation "Invalid ID.") :=
  (order_create_invalid_detail_id
    { offers := [{ id := 10, user := 5, title := "Logo", image := none,
                   description := "d", created_at := 0, updated_at := 0 }]
      details := [{ id := 1, offer := 10, title := "Basic", revisions := 2,
                    delivery_time_in_days := 3, price := 10000,
                    features := ["a"], offer_type := .basic }]
      orders := [], reviews := [], nextOfferId := 11, nextDetailId := 2,
      nextOrderId := 1, nextReviewId := 1 }
    7 4 999 (by decide)).1

/-! ## C8 -/

/-- C8: an order's snapshot fields and participants never change after
creation. An order update can alter only `status` (and the modification
timestamp), and updating or deleting the source offer (which also
replaces or cascades away its detail rows) leaves the orders table
byte-for-byte unchanged — the order holds copies, not references. -/
theorem order_snapshot_immutable (o : OrderRec) (now : Nat) (p : OrderPatch)
    (db : DB) (i now2 : Nat) (patch : OfferPatch) :
    ((updateOrder o now p).title = o.title ∧
     (updateOrder o now p).revisions = o.revisions ∧
     (updateOrder o now p).delivery_time_in_days = o.delivery_time_in_days ∧
     (updateOrder o now p).price = o.price ∧
     (updateOrder o now p).features = o.features ∧
     (updateOrder o now p).offer_type = o.offer_type ∧
     (updateOrder o now p).customer_user = o.customer_user ∧
     (updateOrder o now p).business_user = o.business_user ∧
     (updateOrder o now p).id = o.id ∧
     (updateOrder o now p).created_at = o.created_at) ∧
    (commit db (updateOffer db i now2 patch)).orders = db.orders ∧
    (commit db (deleteOffer db i)).orders = db.orders := by
  refine ⟨⟨rfl, rfl, rfl, rfl, rfl, rfl, rfl, rfl, rfl, rfl⟩, ?_, ?_⟩
  · unfold updateOffer
    cases hfind : findOffer db i with
    | none => rfl
    | some inst =>
      dsimp only
      by_cases hv : (patch.details.getD []).all validDetail = true
      · rw [if_pos hv]
        cases hd : patch.details with
        | none => rfl
        | some ds => rfl
      · rw [if_neg hv]
        rfl
  · unfold deleteOffer
    cases hfind : findOffer db i with
    | none => rfl
    | some inst => rfl

/-! ## C9 -/

/-- C9: with no review yet for a (business_user, reviewer) pair, the first
`createReview` succeeds; a second call for the same pair is rejected by
the pre-check with a duplicate error and exactly one review row for the
pair exists afterward; and the insert preserves the storage-level
`unique_together` constraint. -/
theorem review_duplicate_rejected (db : DB) (rev now1 now2 : Nat)
    (inp : ReviewInput)
    (h0 : countPair db.reviews inp.business_user rev = 0) :
    ∃ db1, createReview db rev now1 inp = .ok db1 ∧
      createReview db1 rev now2 inp =
        .error (.validation "You have already reviewed this user.") ∧
      countPair db1.reviews inp.business_user rev = 1 ∧
      (uniquePairs db.reviews → uniquePairs db1.reviews) := by
  have hnil : db.reviews.filter
      (fun r => r.business_user == inp.business_user && r.reviewer == rev) = [] :=
    List.length_eq_zero.mp h0
  have hnone : ∀ r ∈ db.reviews,
      ¬(r.business_user == inp.business_user && r.reviewer == rev) = true :=
    List.filter_eq_nil_iff.mp hnil
  have hany : db.reviews.any
      (fun r => r.business_user == inp.business_user && r.reviewer == rev) = false := by
    rw [Bool.eq_false_iff]
    intro hc
    rcases List.any_eq_true.mp hc with ⟨r, hr, hp⟩
    exact hnone r hr hp
  have hcond : ¬(db.reviews.any
      (fun r => r.business_user == inp.business_user && r.reviewer == rev) = true) := by
    rw [hany]
    exact Bool.false_ne_true
  refine ⟨{ db with
            reviews := db.reviews ++
              [{ id := db.nextReviewId
                 business_user := inp.business_user
                 reviewer := rev
                 rating := inp.rating
                 description := inp.description
                 created_at := now1
                 updated_at := now1 }]
            nextReviewId := db.nextReviewId + 1 }, ?_, ?_, ?_, ?_⟩
  · simp only [createReview]
    rw [if_neg hcond]
  · simp only [createReview]
    rw [if_pos]
    simp only [List.any_append, hany]
    simp
  · unfold countPair
    simp only [List.filter_append, hnil, List.nil_append]
    simp
  · intro hu
    unfold uniquePairs at hu ⊢
    simp only [List.pairwise_append]
    refine ⟨hu, List.pairwise_singleton _ _, ?_⟩
    intro a ha b hb hab
    rcases List.mem_singleton.mp hb with rfl
    simp only at hab
    apply hnone a ha
    simp [hab.1, hab.2]

/-- Witness for C9 at a concrete store: reviewer 3 has not yet reviewed
business user 8. -/
theorem review_duplicate_rejected_witness :
    ∃ db1, createReview
      { offers := [], details := [], orders := []
        reviews := [{ id := 1, business_user := 8, reviewer := 4, rating := 5,
                      description := "old", created_at := 0, updated_at := 0 }]
        nextOfferId := 1, nextDetailId := 1, nextOrderId := 1, nextReviewId := 2 }
      3 10 { business_user := 8, rating := 4, description := "nice" } = .ok db1 ∧
      createReview db1 3 11
        { business_user := 8, rating := 4, description := "nice" } =
        .error (.validation "You have already reviewed this user.") ∧
      countPair db1.reviews 8 3 = 1 ∧
      (uniquePairs
        ({ offers := [], details := [], orders := []
           reviews := [{ id := 1, business_user := 8, reviewer := 4, rating := 5,
                         description := "old", created_at := 0, updated_at := 0 }]
           nextOfferId := 1, nextDetailId := 1, nextOrderId := 1,
           nextReviewId := 2 } : DB).reviews → uniquePairs db1.reviews) := by
  have h := review_duplicate_rejected
    { offers := [], details := [], orders := []
      reviews := [{ id := 1, business_user := 8, reviewer := 4, rating := 5,
                    description := "old", created_at := 0, updated_at := 0 }]
      nextOfferId := 1, nextDetailId := 1, nextOrderId := 1, nextReviewId := 2 }
    3 10 11 { business_user := 8, rating := 4, description := "nice" }
    (by decide)
  exact h

/-! ## C1 -/

/-- Counterexample for C1 (merge-by-tier). Concrete store: offer 10 owns a
`basic` detail (id 1) and a `premium` detail (id 2). Patching with a
single `standard` detail is claimed to leave both untouched (same
identity); in fact `OfferWriteSerializer.update` deletes every existing
detail row, so afterwards no detail row with id 1 or id 2 exists at all. -/
theorem offer_update_merge_by_tier_counterexample :
    (({ offers := [{ id := 10, user := 5, title := "Logo", image := none,
                     description := "d", created_at := 0, updated_at := 0 }]
        details := [{ id := 1, offer := 10, title := "B", revisions := 2,
                      delivery_time_in_days := 3, price := 10000,
                      features := [], offer_type := .basic },
                    { id := 2, offer := 10, title := "P", revisions := 5,
                      delivery_time_in_days := 7, price := 50000,
                      features := [], offer_type := .premium }]
        orders := [], reviews := [], nextOfferId := 11, nextDetailId := 3,
        nextOrderId := 1, nextReviewId := 1 } : DB).details.any
        (fun d => d.id == 1 && d.offer == 10 && d.offer_type == OfferType.basic)
      = true) ∧
    ((commit
        { offers := [{ id := 10, user := 5, title := "Logo", image := none,
                       description := "d", created_at := 0, updated_at := 0 }]
          details := [{ id := 1, offer := 10, title := "B", revisions := 2,
                        delivery_time_in_days := 3, price := 10000,
                        features := [], offer_type := .basic },
                      { id := 2, offer := 10, title := "P", revisions := 5,
                        delivery_time_in_days := 7, price := 50000,
                        features := [], offer_type := .premium }]
          orders := [], reviews := [], nextOfferId := 11, nextDetailId := 3,
          nextOrderId := 1, nextReviewId := 1 }
        (updateOffer
          { offers := [{ id := 10, user := 5, title := "Logo", image := none,
                         description := "d", created_at := 0, updated_at := 0 }]
            details := [{ id := 1, offer := 10, title := "B", revisions := 2,
                          delivery_time_in_days := 3, price := 10000,
                          features := [], offer_type := .basic },
                        { id := 2, offer := 10, title := "P", revisions := 5,
                          delivery_time_in_days := 7, price := 50000,
                          features := [], offer_type := .premium }]
            orders := [], reviews := [], nextOfferId := 11, nextDetailId := 3,
            nextOrderId := 1, nextReviewId := 1 }
          10 9
          { title := none, description := none, image := none
            details := some [{ title := "S", revisions := 3,
                               delivery_time_in_days := 5, price := 30000,
                               features := [], offer_type := .standard }] })).details.all
        (fun d => !(d.id == 1) && !(d.id == 2)) = true) := by
  constructor
  · decide
  · decide

/-- C1 amended: when an `updateOffer` patch includes a details collection
(every entry field-valid) for an existing offer, the update succeeds and
the offer's detail table afterwards consists of the rows of other offers
plus freshly created rows (fresh ids from the autoincrement counter) for
exactly the incoming payloads — every previously existing detail row of
this offer is deleted, whether or not its tier is mentioned, so no detail
identity is preserved. Orders are untouched. -/
theorem offer_update_replaces_details (db : DB) (offerId now : Nat)
    (patch : OfferPatch) (ds : List DetailInput) (o : OfferRec)
    (hd : patch.details = some ds) (hv : ds.all validDetail = true)
    (hf : findOffer db offerId = some o) :
    (updateOffer db offerId now patch).isOk = true ∧
    (commit db (updateOffer db offerId now patch)).details =
      db.details.filter (fun d => !(d.offer == offerId))
        ++ buildDetails db.nextDetailId offerId ds ∧
    (commit db (updateOffer db offerId now patch)).orders = db.orders := by
  have heq : updateOffer db offerId now patch =
      .ok { db with
            offers := db.offers.map (fun x => if x.id == offerId then
              { o with
                title := patch.title.getD o.title
                description := patch.description.getD o.description
                image := match patch.image with
                         | some s => some s
                         | none => o.image
                updated_at := now } else x)
            details := db.details.filter (fun d => !(d.offer == offerId))
              ++ buildDetails db.nextDetailId offerId ds
            nextDetailId := db.nextDetailId + ds.length } := by
    unfold updateOffer
    rw [hf]
    dsimp only
    rw [hd]
    simp only [Option.getD_some, hv, if_true]
  exact ⟨by rw [heq]; rfl, by rw [heq]; rfl, by rw [heq]; rfl⟩

/-- Witness for the amended C1 theorem at a concrete store and patch. -/
theorem offer_update_replaces_details_witness :
    (updateOffer
      { offers := [{ id := 10, user := 5, title := "Logo", image := none,
                     description := "d", created_at := 0, updated_at := 0 }]
        details := [{ id := 1, offer := 10, title := "B", revisions := 2,
                      delivery_time_in_days := 3, price := 10000,
                      features := [], offer_type := .basic }]
        orders := [], reviews := [], nextOfferId := 11, nextDetailId := 2,
        nextOrderId := 1, nextReviewId := 1 }
      10 9
      { title := none, description := none, image := none
        details := some [{ title := "S", revisions := 3,
                           delivery_time_in_days := 5, price := 30000,
                           features := [], offer_type := .standard }] }).isOk = true ∧
    (commit
      { offers := [{ id := 10, user := 5, title := "Logo", image := none,
                     description := "d", created_at := 0, updated_at := 0 }]
        details := [{ id := 1, offer := 10, title := "B", revisions := 2,
                      delivery_time_in_days := 3, price := 10000,
                      features := [], offer_type := .basic }]
        orders := [], reviews := [], nextOfferId := 11, nextDetailId := 2,
        nextOrderId := 1, nextReviewId := 1 }
      (updateOffer
        { offers := [{ id := 10, user := 5, title := "Logo", image := none,
                       description := "d", created_at := 0, updated_at := 0 }]
          details := [{ id := 1, offer := 10, title := "B", revisions := 2,
                        delivery_time_in_days := 3, price := 10000,
                        features := [], offer_type := .basic }]
          orders := [], reviews := [], nextOfferId := 11, nextDetailId := 2,
          nextOrderId := 1, nextReviewId := 1 }
        10 9
        { title := none, description := none, image := none
          details := some [{ title := "S", revisions := 3,
                             delivery_time_in_days := 5, price := 30000,
                             features := [], offer_type := .standard }] })).details =
      ({ offers := [{ id := 10, user := 5, title := "Logo", image := none,
                      description := "d", created_at := 0, updated_at := 0 }]
         details := [{ id := 1, offer := 10, title := "B", revisions := 2,
                       delivery_time_in_days := 3, price := 10000,
                       features := [], offer_type := .basic }]
         orders := [], reviews := [], nextOfferId := 11, nextDetailId := 2,
         nextOrderId := 1, nextReviewId := 1 } : DB).details.filter
            (fun d => !(d.offer == 10))
        ++ buildDetails 2 10 [{ title := "S", revisions := 3,
                                delivery_time_in_days := 5, price := 30000,
                                features := [], offer_type := .standard }] := by
  have h := offer_update_replaces_details
    { offers := [{ id := 10, user := 5, title := "Logo", image := none,
                   description := "d", created_at := 0, updated_at := 0 }]
      details := [{ id := 1, offer := 10, title := "B", revisions := 2,
                    delivery_time_in_days := 3, price := 10000,
                    features := [], offer_type := .basic }]
      orders := [], reviews := [], nextOfferId := 11, nextDetailId := 2,
      nextOrderId := 1, nextReviewId := 1 }
    10 9
    { title := none, description := none, image := none
      details := some [{ title := "S", revisions := 3,
                         delivery_time_in_days := 5, price := 30000,
                         features := [], offer_type := .standard }] }
    [{ title := "S", revisions := 3, delivery_time_in_days := 5,
       price := 30000, features := [], offer_type := .standard }]
    { id := 10, user := 5, title := "Logo", image := none,
      description := "d", created_at := 0, updated_at := 0 }
    rfl (by decide) (by decide)
  exact ⟨h.1, h.2.1⟩

/-! ## C2 -/

/-- Counterexample for C2: an input with ZERO details is claimed to fail
validation, but `details = OfferDetailSerializer(many=True)` accepts an
empty list (DRF default `allow_empty=True`), so the create succeeds and
commits an offer row with no detail rows. -/
theorem offer_create_zero_details_counterexample :
    (createOffer
      { offers := [], details := [], orders := [], reviews := [],
        nextOfferId := 1, nextDetailId := 1, nextOrderId := 1, nextReviewId := 1 }
      7 0 "T" none "D" []).isOk = true ∧
    (commit
      { offers := [], details := [], orders := [], reviews := [],
        nextOfferId := 1, nextDetailId := 1, nextOrderId := 1, nextReviewId := 1 }
      (createOffer
        { offers := [], details := [], orders := [], reviews := [],
          nextOfferId := 1, nextDetailId := 1, nextOrderId := 1, nextReviewId := 1 }
        7 0 "T" none "D" [])).offers.length = 1 := by
  constructor
  · decide
  · decide

/-- C2 amended: `createOffer` fails with a validation error — committing
no offer row and no detail row — whenever some detail has price below one
cent or delivery time below one day; any input whose details all satisfy
price ≥ 0.01 and delivery_time ≥ 1, INCLUDING the empty details list, is
accepted, persisting the offer row and all its detail rows as one unit. -/
theorem offer_create_validation (db : DB) (u now : Nat) (t : String)
    (img : Option String) (desc : String) (ds : List DetailInput) :
    ((∃ d ∈ ds, d.price < 1 ∨ d.delivery_time_in_days < 1) →
      createOffer db u now t img desc ds = .error (.validation "detail") ∧
      (commit db (createOffer db u now t img desc ds)).offers = db.offers ∧
      (commit db (createOffer db u now t img desc ds)).details = db.details) ∧
    ((∀ d ∈ ds, 1 ≤ d.price ∧ 1 ≤ d.delivery_time_in_days) →
      createOffer db u now t img desc ds =
        .ok { db with
              offers := db.offers ++
                [{ id := db.nextOfferId, user := u, title := t, image := img,
                   description := desc, created_at := now, updated_at := now }]
              details := db.details ++ buildDetails db.nextDetailId db.nextOfferId ds
              nextOfferId := db.nextOfferId + 1
              nextDetailId := db.nextDetailId + ds.length }) := by
  constructor
  · intro hbad
    rcases hbad with ⟨d, hd, hcase⟩
    have hall : ¬(ds.all validDetail = true) := by
      intro hall
      have := List.all_eq_true.mp hall d hd
      simp only [validDetail, Bool.and_eq_true, decide_eq_true_eq] at this
      rcases hcase with hc | hc
      · exact absurd this.1 (by omega)
      · exact absurd this.2 (by omega)
    have herr : createOffer db u now t img desc ds =
        .error (.validation "detail") := by
      unfold createOffer
      rw [if_neg hall]
    exact ⟨herr, by rw [herr]; rfl, by rw [herr]; rfl⟩
  · intro hgood
    have hall : ds.all validDetail = true := by
      apply List.all_eq_true.mpr
      intro d hd
      have := hgood d hd
      simp only [validDetail, Bool.and_eq_true, decide_eq_true_eq]
      exact this
    unfold createOffer
    rw [if_pos hall]

/-- Witness for the amended C2 theorem: a one-detail input whose price is
0 (below a cent) is rejected; a one-detail valid input is persisted. -/
theorem offer_create_validation_witness :
    (createOffer
      { offers := [], details := [], orders := [], reviews := [],
        nextOfferId := 1, nextDetailId := 1, nextOrderId := 1, nextReviewId := 1 }
      7 0 "T" none "D"
      [{ title := "B", revisions := 1, delivery_time_in_days := 3, price := 0,
         features := [], offer_type := .basic }] =
      .error (.validation "detail")) ∧
    (createOffer
      { offers := [], details := [], orders := [], reviews := [],
        nextOfferId := 1, nextDetailId := 1, nextOrderId := 1, nextReviewId := 1 }
      7 0 "T" none "D"
      [{ title := "B", revisions := 1, delivery_time_in_days := 3, price := 100,
         features := [], offer_type := .basic }] =
      .ok { offers := [{ id := 1, user := 7, title := "T", image := none,
                         description := "D", created_at := 0, updated_at := 0 }]
            details := [{ id := 1, offer := 1, title := "B", revisions := 1,
                          delivery_time_in_days := 3, price := 100,
                          features := [], offer_type := .basic }]
            orders := [], reviews := [], nextOfferId := 2, nextDetailId := 2,
            nextOrderId := 1, nextReviewId := 1 }) := by
  constructor
  · exact ((offer_create_validation
      { offers := [], details := [], orders := [], reviews := [],
        nextOfferId := 1, nextDetailId := 1, nextOrderId := 1, nextReviewId := 1 }
      7 0 "T" none "D"
      [{ title := "B", revisions := 1, delivery_time_in_days := 3, price := 0,
         features := [], offer_type := .basic }]).1
      ⟨{ title := "B", revisions := 1, delivery_time_in_days := 3, price := 0,
         features := [], offer_type := .basic },
       by decide, by left; decide⟩).1
  · have h := (offer_create_validation
      { offers := [], details := [], orders := [], reviews := [],
        nextOfferId := 1, nextDetailId := 1, nextOrderId := 1, nextReviewId := 1 }
      7 0 "T" none "D"
      [{ title := "B", revisions := 1, delivery_time_in_days := 3, price := 100,
         features := [], offer_type := .basic }]).2
      (by intro d hd; rcases List.mem_singleton.mp hd with rfl; constructor <;> decide)
    rw [h]
    rfl

/-! ## C3 -/

/-- Counterexample for C3: at a concrete store (offer 10 with one detail),
the `details` component of the retrieve response is the link rendering
(`id`, `url`), not the full detail bodies the claim asserts —
`OfferRetrieveSerializer` nests `OfferDetailLinkSerializer`. -/
theorem offer_retrieve_full_bodies_counterexample :
    retrieveDetailsRendered
      { offers := [{ id := 10, user := 5, title := "Logo", image := none,
                     description := "d", created_at := 0, updated_at := 0 }]
        details := [{ id := 1, offer := 10, title := "B", revisions := 2,
                      delivery_time_in_days := 3, price := 10000,
                      features := [], offer_type := .basic }]
        orders := [], reviews := [], nextOfferId := 11, nextDetailId := 2,
        nextOrderId := 1, nextReviewId := 1 }
      10 ≠
    some (claimedFullBodies
      { offers := [{ id := 10, user := 5, title := "Logo", image := none,
                     description := "d", created_at := 0, updated_at := 0 }]
        details := [{ id := 1, offer := 10, title := "B", revisions := 2,
                      delivery_time_in_days := 3, price := 10000,
                      features := [], offer_type := .basic }]
        orders := [], reviews := [], nextOfferId := 11, nextDetailId := 2,
        nextOrderId := 1, nextReviewId := 1 }
      10) := by
  decide

/-- C3 amended: `getOffer(id)` returns a not-found error when no offer
has that id; otherwise it returns the offer with its details as LINKS
(id plus hyperlink, one per detail row, in order) together with the
derived scalars `min_price` and `min_delivery_time` (true minima over the
detail rows, 0 when there are none). -/
theorem offer_retrieve_links_and_scalars (db : DB) (i : Nat) :
    (findOffer db i = none → retrieveOffer db i = .error .notFound) ∧
    (∀ o, findOffer db i = some o →
      ∃ out, retrieveOffer db i = .ok out ∧
        out.details = (detailsOf db i).map linkOf ∧
        out.details.map (fun l => l.id) = (detailsOf db i).map (fun d => d.id) ∧
        out.min_price =
          serializeMin (intMin? ((detailsOf db i).map (fun d => d.price))) ∧
        out.min_delivery_time =
          serializeMin (intMin?
            ((detailsOf db i).map (fun d => d.delivery_time_in_days)))) := by
  constructor
  · intro h
    unfold retrieveOffer
    rw [h]
  · intro o h
    refine ⟨{ id := o.id, user := o.user, title := o.title, image := o.image,
              description := o.description, created_at := o.created_at,
              updated_at := o.updated_at,
              details := (detailsOf db i).map linkOf,
              min_price := serializeMin (annMinPrice db i),
              min_delivery_time := serializeMin (annMinDelivery db i) },
            ?_, rfl, ?_, rfl, rfl⟩
    · unfold retrieveOffer
      rw [h]
    · rw [List.map_map]
      apply List.map_congr_left
      intro d hd
      rfl

/-- Witness for the amended C3 theorem: offer id 99 is absent (404) and
offer id 10 is present with one detail. -/
theorem offer_retrieve_links_and_scalars_witness :
    (retrieveOffer
      { offers := [{ id := 10, user := 5, title := "Logo", image := none,
                     description := "d", created_at := 0, updated_at := 0 }]
        details := [{ id := 1, offer := 10, title := "B", revisions := 2,
                      delivery_time_in_days := 3, price := 10000,
                      features := [], offer_type := .basic }]
        orders := [], reviews := [], nextOfferId := 11, nextDetailId := 2,
        nextOrderId := 1, nextReviewId := 1 }
      99 = .error .notFound) ∧
    (∃ out, retrieveOffer
      { offers := [{ id := 10, user := 5, title := "Logo", image := none,
                     description := "d", created_at := 0, updated_at := 0 }]
        details := [{ id := 1, offer := 10, title := "B", revisions := 2,
                      delivery_time_in_days := 3, price := 10000,
                      features := [], offer_type := .basic }]
        orders := [], reviews := [], nextOfferId := 11, nextDetailId := 2,
        nextOrderId := 1, nextReviewId := 1 }
      10 = .ok out ∧
      out.min_price = 100 * 100 ∧ out.min_delivery_time = 3) := by
  constructor
  · exact (offer_retrieve_links_and_scalars
      { offers := [{ id := 10, user := 5, title := "Logo", image := none,
                     description := "d", created_at := 0, updated_at := 0 }]
        details := [{ id := 1, offer := 10, title := "B", revisions := 2,
                      delivery_time_in_days := 3, price := 10000,
                      features := [], offer_type := .basic }]
        orders := [], reviews := [], nextOfferId := 11, nextDetailId := 2,
        nextOrderId := 1, nextReviewId := 1 }
      99).1 (by decide)
  · rcases (offer_retrieve_links_and_scalars
      { offers := [{ id := 10, user := 5, title := "Logo", image := none,
                     description := "d", created_at := 0, updated_at := 0 }]
        details := [{ id := 1, offer := 10, title := "B", revisions := 2,
                      delivery_time_in_days := 3, price := 10000,
                      features := [], offer_type := .basic }]
        orders := [], reviews := [], nextOfferId := 11, nextDetailId := 2,
        nextOrderId := 1, nextReviewId := 1 }
      10).2
      { id := 10, user := 5, title := "Logo", image := none,
        description := "d", created_at := 0, updated_at := 0 }
      (by decide) with ⟨out, hout, hlinks, hids, hmp, hmd⟩
    exact ⟨out, hout, by rw [hmp]; decide, by rw [hmd]; decide⟩

/-! ## C6 -/

/-- C6: an offer whose detail collection is empty reports
`min_price = 0` and `min_delivery_time = 0`, both in its list-response
entry and in the single-offer retrieve response (the `Min` annotation is
`NULL` and the serializer maps `None` to 0). -/
theorem empty_details_zero_scalars (db : DB) (o : OfferRec)
    (h : detailsOf db o.id = []) :
    (offerListEntry db o).min_price = 0 ∧
    (offerListEntry db o).min_delivery_time = 0 ∧
    (∀ out, retrieveOffer db o.id = .ok out →
      out.min_price = 0 ∧ out.min_delivery_time = 0) := by
  have h1 : annMinPrice db o.id = none := by
    unfold annMinPrice
    rw [h]
    rfl
  have h2 : annMinDelivery db o.id = none := by
    unfold annMinDelivery
    rw [h]
    rfl
  refine ⟨?_, ?_, ?_⟩
  · simp [offerListEntry, h1, serializeMin]
  · simp [offerListEntry, h2, serializeMin]
  · intro out hout
    unfold retrieveOffer at hout
    cases hfind : findOffer db o.id with
    | none =>
      rw [hfind] at hout
      exact absurd hout (by simp)
    | some o2 =>
      rw [hfind] at hout
      have hrec := Except.ok.inj hout
      constructor
      · rw [← hrec]
        simp [h1, serializeMin]
      · rw [← hrec]
        simp [h2, serializeMin]

/-- Witness for C6: offer 20 has no detail rows (offer 10 has one). -/
theorem empty_details_zero_scalars_witness :
    (offerListEntry
      { offers := [{ id := 10, user := 5, title := "Logo", image := none,
                     description := "d", created_at := 0, updated_at := 0 },
                   { id := 20, user := 5, title := "Empty", image := none,
                     description := "e", created_at := 0, updated_at := 0 }]
        details := [{ id := 1, offer := 10, title := "B", revisions := 2,
                      delivery_time_in_days := 3, price := 10000,
                      features := [], offer_type := .basic }]
        orders := [], reviews := [], nextOfferId := 21, nextDetailId := 2,
        nextOrderId := 1, nextReviewId := 1 }
      { id := 20, user := 5, title := "Empty", image := none,
        description := "e", created_at := 0, updated_at := 0 }).min_price = 0 ∧
    (offerListEntry
      { offers := [{ id := 10, user := 5, title := "Logo", image := none,
                     description := "d", created_at := 0, updated_at := 0 },
                   { id := 20, user := 5, title := "Empty", image := none,
                     description := "e", created_at := 0, updated_at := 0 }]
        details := [{ id := 1, offer := 10, title := "B", revisions := 2,
                      delivery_time_in_days := 3, price := 10000,
                      features := [], offer_type := .basic }]
        orders := [], reviews := [], nextOfferId := 21, nextDetailId := 2,
        nextOrderId := 1, nextReviewId := 1 }
      { id := 20, user := 5, title := "Empty", image := none,
        description := "e", created_at := 0, updated_at := 0 }).min_delivery_time
      = 0 := by
  have h := empty_details_zero_scalars
    { offers := [{ id := 10, user := 5, title := "Logo", image := none,
                   description := "d", created_at := 0, updated_at := 0 },
                 { id := 20, user := 5, title := "Empty", image := none,
                   description := "e", created_at := 0, updated_at := 0 }]
      details := [{ id := 1, offer := 10, title := "B", revisions := 2,
                    delivery_time_in_days := 3, price := 10000,
                    features := [], offer_type := .basic }]
      orders := [], reviews := [], nextOfferId := 21, nextDetailId := 2,
      nextOrderId := 1, nextReviewId := 1 }
    { id := 20, user := 5, title := "Empty", image := none,
      description := "e", created_at := 0, updated_at := 0 }
    (by decide)
  exact ⟨h.1, h.2.1⟩

/-! ## C4 -/

/-- C4: any offer returned by a `listOffers` request carrying a
`min_price=X` filter has a true minimum detail price (the minimum over
its detail rows' prices) that exists and is ≥ X; offers whose minimum is
below X — and offers with no details at all (`NULL` aggregate) — are
never returned. Holds for every combination of the other parameters. -/
theorem list_min_price_filter_sound (db : DB) (p : ListParams) (x : Int)
    (o : OfferRec) (hx : p.min_price = some x) (hmem : o ∈ listOffers db p) :
    ∃ m, intMin? ((detailsOf db o.id).map (fun d => d.price)) = some m ∧
      x ≤ m := by
  simp only [listOffers] at hmem
  have h2 := (List.take_sublist _ _).subset hmem
  have h3 := (List.drop_sublist _ _).subset h2
  have h4 : o ∈ db.offers.filter (passesFilters db p) :=
    (List.perm_insertionSort _ _).subset h3
  have h5 := (List.mem_filter.mp h4).2
  unfold passesFilters at h5
  rw [hx] at h5
  simp only [Bool.and_eq_true] at h5
  have hmp := h5.1.1.2
  cases hann : annMinPrice db o.id with
  | none =>
    rw [hann] at hmp
    exact absurd hmp (by simp)
  | some m =>
    rw [hann] at hmp
    exact ⟨m, hann, of_decide_eq_true hmp⟩

/-- Witness for C4: concrete request with `min_price = 5000` returns
offer 10, whose true minimum price 10000 is ≥ 5000. -/
theorem list_min_price_filter_sound_witness :
    ({ id := 10, user := 5, title := "Logo", image := none,
       description := "d", created_at := 0, updated_at := 0 } : OfferRec) ∈
      listOffers
        { offers := [{ id := 10, user := 5, title := "Logo", image := none,
                       description := "d", created_at := 0, updated_at := 0 },
                     { id := 20, user := 5, title := "Cheap", image := none,
                       description := "e", created_at := 0, updated_at := 0 }]
          details := [{ id := 1, offer := 10, title := "B", revisions := 2,
                        delivery_time_in_days := 3, price := 10000,
                        features := [], offer_type := .basic },
                      { id := 2, offer := 20, title := "C", revisions := 1,
                        delivery_time_in_days := 1, price := 100,
                        features := [], offer_type := .basic }]
          orders := [], reviews := [], nextOfferId := 21, nextDetailId := 3,
          nextOrderId := 1, nextReviewId := 1 }
        { creator_id := none, min_price := some 5000, max_delivery_time := none,
          search := none, ordering := .unspecified, page := 1,
          page_size := none } ∧
    (∃ m, intMin? ((detailsOf
        { offers := [{ id := 10, user := 5, title := "Logo", image := none,
                       description := "d", created_at := 0, updated_at := 0 },
                     { id := 20, user := 5, title := "Cheap", image := none,
                       description := "e", created_at := 0, updated_at := 0 }]
          details := [{ id := 1, offer := 10, title := "B", revisions := 2,
                        delivery_time_in_days := 3, price := 10000,
                        features := [], offer_type := .basic },
                      { id := 2, offer := 20, title := "C", revisions := 1,
                        delivery_time_in_days := 1, price := 100,
                        features := [], offer_type := .basic }]
          orders := [], reviews := [], nextOfferId := 21, nextDetailId := 3,
          nextOrderId := 1, nextReviewId := 1 }
        10).map (fun d => d.price)) = some m ∧ (5000 : Int) ≤ m) := by
  constructor
  · decide
  · exact list_min_price_filter_sound
      { offers := [{ id := 10, user := 5, title := "Logo", image := none,
                     description := "d", created_at := 0, updated_at := 0 },
                   { id := 20, user := 5, title := "Cheap", image := none,
                     description := "e", created_at := 0, updated_at := 0 }]
        details := [{ id := 1, offer := 10, title := "B", revisions := 2,
                      delivery_time_in_days := 3, price := 10000,
                      features := [], offer_type := .basic },
                    { id := 2, offer := 20, title := "C", revisions := 1,
                      delivery_time_in_days := 1, price := 100,
                      features := [], offer_type := .basic }]
        orders := [], reviews := [], nextOfferId := 21, nextDetailId := 3,
        nextOrderId := 1, nextReviewId := 1 }
      { creator_id := none, min_price := some 5000, max_delivery_time := none,
        search := none, ordering := .unspecified, page := 1, page_size := none }
      5000
      { id := 10, user := 5, title := "Logo", image := none,
        description := "d", created_at := 0, updated_at := 0 }
      rfl (by decide)

/-! ## C5 -/

/-- C5: for any `listOffers` request ordered ascending by `min_price`
(over any store whose detail prices are non-negative, as every
API-created detail is, since validation enforces price ≥ 0.01), the
sequence of true minimum detail prices of the returned page — taking the
documented sentinel 0 for offers with no details, which sort first as
`NULL` — is non-decreasing. -/
theorem list_order_by_min_price_asc_monotone (db : DB) (p : ListParams)
    (hord : p.ordering = .minPriceAsc)
    (hpos : ∀ d ∈ db.details, 0 ≤ d.price) :
    List.Pairwise (fun a b => a ≤ b)
      ((listOffers db p).map (fun o =>
        serializeMin (intMin? ((detailsOf db o.id).map (fun d => d.price))))) := by
  have key : ∀ i m, annMinPrice db i = some m → 0 ≤ m := by
    intro i m h
    rcases annMinPrice_mem h with ⟨d, hd, hdm⟩
    rw [← hdm]
    exact hpos d hd
  simp only [listOffers, hord]
  haveI hTot : IsTotal OfferRec
      (fun a b => offerLe db .minPriceAsc a b = true) := by
    constructor
    intro a b
    simp only [offerLe]
    exact optLe_total _ _
  haveI hTrans : IsTrans OfferRec
      (fun a b => offerLe db .minPriceAsc a b = true) := by
    constructor
    intro a b c hab hbc
    simp only [offerLe] at hab hbc ⊢
    exact optLe_trans hab hbc
  have hsorted : List.Sorted (fun a b => offerLe db .minPriceAsc a b = true)
      (List.insertionSort (fun a b => offerLe db .minPriceAsc a b = true)
        (db.offers.filter (passesFilters db p))) :=
    List.sorted_insertionSort _ _
  have hpage : List.Pairwise (fun a b => offerLe db .minPriceAsc a b = true)
      (((List.insertionSort (fun a b => offerLe db .minPriceAsc a b = true)
          (db.offers.filter (passesFilters db p))).drop
            ((p.page - 1) * pageSizeOf p)).take (pageSizeOf p)) :=
    List.Pairwise.sublist
      ((List.take_sublist _ _).trans (List.drop_sublist _ _)) hsorted
  rw [List.pairwise_map]
  apply List.Pairwise.imp ?_ hpage
  intro a b hab
  simp only [offerLe] at hab
  show serializeMin (annMinPrice db a.id) ≤ serializeMin (annMinPrice db b.id)
  cases ha : annMinPrice db a.id with
  | none =>
    cases hb : annMinPrice db b.id with
    | none => simp [serializeMin]
    | some mb =>
      simp only [serializeMin, Option.getD_none, Option.getD_some]
      exact key _ _ hb
  | some ma =>
    cases hb : annMinPrice db b.id with
    | none =>
      rw [ha, hb] at hab
      exact absurd hab (by simp [optLe])
    | some mb =>
      rw [ha, hb] at hab
      simp only [optLe, decide_eq_true_eq] at hab
      simp only [serializeMin, Option.getD_some]
      exact hab

/-- Witness for C5: three offers (one with no details, two priced), all
detail prices non-negative; the page mapped to reported minima is
non-decreasing. -/
theorem list_order_by_min_price_asc_monotone_witness :
    (({ offers := [{ id := 10, user := 5, title := "Logo", image := none,
                     description := "d", created_at := 3, updated_at := 3 },
                   { id := 20, user := 5, title := "Empty", image := none,
                     description := "e", created_at := 1, updated_at := 1 },
                   { id := 30, user := 6, title := "Cheap", image := none,
                     description := "c", created_at := 2, updated_at := 2 }]
        details := [{ id := 1, offer := 10, title := "B", revisions := 2,
                      delivery_time_in_days := 3, price := 10000,
                      features := [], offer_type := .basic },
                    { id := 2, offer := 30, title := "C", revisions := 1,
                      delivery_time_in_days := 1, price := 2000,
                      features := [], offer_type := .basic }]
        orders := [], reviews := [], nextOfferId := 31, nextDetailId := 3,
        nextOrderId := 1, nextReviewId := 1 } : DB).details.all
        (fun d => decide (0 ≤ d.price)) = true) ∧
    List.Pairwise (fun a b => a ≤ b)
      ((listOffers
        { offers := [{ id := 10, user := 5, title := "Logo", image := none,
                       description := "d", created_at := 3, updated_at := 3 },
                     { id := 20, user := 5, title := "Empty", image := none,
                       description := "e", created_at := 1, updated_at := 1 },
                     { id := 30, user := 6, title := "Cheap", image := none,
                       description := "c", created_at := 2, updated_at := 2 }]
          details := [{ id := 1, offer := 10, title := "B", revisions := 2,
                        delivery_time_in_days := 3, price := 10000,
                        features := [], offer_type := .basic },
                      { id := 2, offer := 30, title := "C", revisions := 1,
                        delivery_time_in_days := 1, price := 2000,
                        features := [], offer_type := .basic }]
          orders := [], reviews := [], nextOfferId := 31, nextDetailId := 3,
          nextOrderId := 1, nextReviewId := 1 }
        { creator_id := none, min_price := none, max_delivery_time := none,
          search := none, ordering := .minPriceAsc, page := 1,
          page_size := none }).map (fun o =>
        serializeMin (intMin? ((detailsOf
          { offers := [{ id := 10, user := 5, title := "Logo", image := none,
                         description := "d", created_at := 3, updated_at := 3 },
                       { id := 20, user := 5, title := "Empty", image := none,
                         description := "e", created_at := 1, updated_at := 1 },
                       { id := 30, user := 6, title := "Cheap", image := none,
                         description := "c", created_at := 2, updated_at := 2 }]
            details := [{ id := 1, offer := 10, title := "B", revisions := 2,
                          delivery_time_in_days := 3, price := 10000,
                          features := [], offer_type := .basic },
                        { id := 2, offer := 30, title := "C", revisions := 1,
                          delivery_time_in_days := 1, price := 2000,
                          features := [], offer_type := .basic }]
            orders := [], reviews := [], nextOfferId := 31, nextDetailId := 3,
            nextOrderId := 1, nextReviewId := 1 }
          o.id).map (fun d => d.price))))) := by
  constructor
  · decide
  · exact list_order_by_min_price_asc_monotone
      { offers := [{ id := 10, user := 5, title := "Logo", image := none,
                     description := "d", created_at := 3, updated_at := 3 },
                   { id := 20, user := 5, title := "Empty", image := none,
                     description := "e", created_at := 1, updated_at := 1 },
                   { id := 30, user := 6, title := "Cheap", image := none,
                     description := "c", created_at := 2, updated_at := 2 }]
        details := [{ id := 1, offer := 10, title := "B", revisions := 2,
                      delivery_time_in_days := 3, price := 10000,
                      features := [], offer_type := .basic },
                    { id := 2, offer := 30, title := "C", revisions := 1,
                      delivery_time_in_days := 1, price := 2000,
                      features := [], offer_type := .basic }]
        orders := [], reviews := [], nextOfferId := 31, nextDetailId := 3,
        nextOrderId := 1, nextReviewId := 1 }
      { creator_id := none, min_price := none, max_delivery_time := none,
        search := none, ordering := .minPriceAsc, page := 1, page_size := none }
      rfl (by decide)
